import Mathlib

/-!
Verification development for the oneVPL `legacy-encode` example
(`src/examples/coreAPI/legacy-encode/src/legacy-encode.cpp`).

The encode loop of `main` (lines 144-196) is embedded as a small-step state
machine.  Each loop iteration is split into the three phases the source
performs in order:

* `phaseRead`    — lines 146-153: while not draining, acquire a free surface
  with `GetFreeSurfaceIndex` and fill it with `ReadRawFrame`; any non-NONE
  read status flips `isDraining` to true.
* `phaseSubmit`  — lines 155-159: the `MFXVideoENCODE_EncodeFrameAsync` call;
  when it returns `MFX_ERR_NONE` together with a sync point, a sync token
  becomes live.
* `phaseDispatch`— lines 161-195: the `switch (sts)` over the returned status.

The behaviour of the external environment (the frame source, the encoder, the
sync wait and the sink) during one iteration is abstracted into an `EnvStep`
record; a whole run of the loop is a fold over a list of such records, stopping
as soon as the loop condition `isStillGoing` fails or a `VERIFY` inside the
loop jumped to the `end` label.
-/

namespace LegacyEncode

/-- The encoder status vocabulary as dispatched by the `switch` at
legacy-encode.cpp:161-195.  The five constructors mirror the five `case`
labels (`MFX_ERR_NONE`, `MFX_ERR_NOT_ENOUGH_BUFFER`, `MFX_ERR_MORE_DATA`,
`MFX_ERR_DEVICE_LOST`, `MFX_WRN_DEVICE_BUSY`), which are five distinct
enumerators of `mfxStatus`; `other c` stands for any other numeric status
value, the ones that reach the `default` label. -/
inductive MfxStatus where
  | errNone
  | errNotEnoughBuffer
  | errMoreData
  | errDeviceLost
  | wrnDeviceBusy
  | other (code : Int)
deriving DecidableEq, Repr

/-- Modelled from the spec: `ReadRawFrame` lives in `util.h`, which is not in
this repository snapshot.  Per spec section 4.2 a frame read yields
`Filled`, `EndOfStream` or `ReadError`; `Filled` corresponds to the
`MFX_ERR_NONE` return the loop tests for at legacy-encode.cpp:151, the other
two to non-NONE statuses. -/
inductive ReadResult where
  | filled
  | endOfStream
  | readError
deriving DecidableEq, Repr

/-- The mutable state of `main`'s encode loop (legacy-encode.cpp:35-54 for the
declarations, 144-196 for the loop).  Instrumentation counters
(`acquisitions`, `submissions`, `sinkWrites`, `sinkFailures`, `log`) record
the calls the loop makes so that theorems can speak about them. -/
structure LoopSt where
  /-- `framenum` (line 50). -/
  framenum : Nat
  /-- `isDraining` (line 51). -/
  isDraining : Bool
  /-- `isStillGoing` (line 52), the loop condition. -/
  isStillGoing : Bool
  /-- true once a `VERIFY` inside the loop failed and jumped to `end`
  (the `MFXVideoCORE_SyncOperation` check at line 167). -/
  aborted : Bool
  /-- number of frames consumed from the source by successful reads. -/
  srcPos : Nat
  /-- number of `GetFreeSurfaceIndex` calls (surface acquisitions, line 147). -/
  acquisitions : Nat
  /-- outstanding sync tokens: a `syncp` yielded by a submission and not yet
  passed to `MFXVideoCORE_SyncOperation`. -/
  liveTokens : Nat
  /-- `bitstream.DataLength`: bytes of an encoded unit occupying the single
  reusable bitstream buffer and not yet flushed to the sink. -/
  bitstreamLen : Nat
  /-- number of `MFXVideoENCODE_EncodeFrameAsync` calls (line 155). -/
  submissions : Nat
  /-- number of `WriteEncodedStream` calls (line 169). -/
  sinkWrites : Nat
  /-- number of those write calls whose underlying sink write failed. -/
  sinkFailures : Nat
  /-- status codes printed by the `default` branch (line 192). -/
  log : List Int
deriving DecidableEq, Repr

/-- The loop state right before the first iteration (legacy-encode.cpp:50-54). -/
def initSt : LoopSt :=
  { framenum := 0
    isDraining := false
    isStillGoing := true
    aborted := false
    srcPos := 0
    acquisitions := 0
    liveTokens := 0
    bitstreamLen := 0
    submissions := 0
    sinkWrites := 0
    sinkFailures := 0
    log := [] }

/-- What the external world does during one loop iteration: the result of the
frame read (consulted only while not draining), the status returned by the
submission, whether the submission yielded a sync point (consulted only on
`MFX_ERR_NONE`), the outcome of the sync wait, the size of the produced unit,
and whether the sink write succeeded. -/
structure EnvStep where
  readRes : ReadResult
  subStatus : MfxStatus
  token : Bool
  syncOk : Bool
  producedLen : Nat
  writeOk : Bool
deriving DecidableEq, Repr

/-- Lines 146-153: `if (isDraining == false) { nIndex = GetFreeSurfaceIndex(...);
encSurfaceIn = &encSurfPool[nIndex]; sts = ReadRawFrame(encSurfaceIn, source);
if (sts != MFX_ERR_NONE) isDraining = true; }`. -/
def phaseRead (e : EnvStep) (s : LoopSt) : LoopSt :=
  if s.isDraining then s
  else
    match e.readRes with
    | .filled => { s with acquisitions := s.acquisitions + 1, srcPos := s.srcPos + 1 }
    | .endOfStream => { s with acquisitions := s.acquisitions + 1, isDraining := true }
    | .readError => { s with acquisitions := s.acquisitions + 1, isDraining := true }

/-- The surface argument of the submission at line 157:
`(isDraining == true) ? NULL : encSurfaceIn`. -/
def submitArg (s : LoopSt) : Option Unit :=
  if s.isDraining then none else some ()

/-- Lines 155-159: the `MFXVideoENCODE_EncodeFrameAsync` call.  On
`MFX_ERR_NONE` the call may set `syncp`, making a sync token live. -/
def phaseSubmit (e : EnvStep) (s : LoopSt) : LoopSt :=
  let s1 := { s with submissions := s.submissions + 1 }
  match e.subStatus with
  | .errNone => if e.token then { s1 with liveTokens := s1.liveTokens + 1 } else s1
  | _ => s1

/-- Lines 161-195: the `switch (sts)` dispatch.
* `MFX_ERR_NONE` (162-172): if `syncp` is set, wait on it with
  `MFXVideoCORE_SyncOperation` (the `VERIFY` jumps to `end` on failure), then
  `WriteEncodedStream` flushes the bitstream buffer to the sink (its outcome
  is not inspected) and `framenum` is incremented.
* `MFX_ERR_NOT_ENOUGH_BUFFER` (173-177): empty.
* `MFX_ERR_MORE_DATA` (178-182): stop the loop when draining.
* `MFX_ERR_DEVICE_LOST` (183-186): empty.
* `MFX_WRN_DEVICE_BUSY` (187-190): empty.
* `default` (191-194): print the status and stop the loop. -/
def phaseDispatch (e : EnvStep) (s : LoopSt) : LoopSt :=
  match e.subStatus with
  | .errNone =>
      if e.token then
        let s1 := { s with liveTokens := s.liveTokens - 1 }
        if e.syncOk then
          let s2 := { s1 with bitstreamLen := e.producedLen }
          { s2 with
            bitstreamLen := 0
            sinkWrites := s2.sinkWrites + 1
            sinkFailures := s2.sinkFailures + (if e.writeOk then 0 else 1)
            framenum := s2.framenum + 1 }
        else
          { s1 with aborted := true }
      else s
  | .errNotEnoughBuffer => s
  | .errMoreData => if s.isDraining then { s with isStillGoing := false } else s
  | .errDeviceLost => s
  | .wrnDeviceBusy => s
  | .other c => { s with isStillGoing := false, log := s.log ++ [c] }

/-- One iteration of the `while (isStillGoing == true)` loop body
(legacy-encode.cpp:144-196). -/
def stepIter (e : EnvStep) (s : LoopSt) : LoopSt :=
  phaseDispatch e (phaseSubmit e (phaseRead e s))

/-- The loop has stopped: either `isStillGoing` became false or a `VERIFY`
inside the loop jumped to the `end` label. -/
def halted (s : LoopSt) : Bool :=
  s.aborted || !s.isStillGoing

/-- Run the loop under a list of environment behaviours, one per iteration,
stopping as soon as the loop condition fails. -/
def run (s : LoopSt) : List EnvStep → LoopSt
  | [] => s
  | e :: es => if halted s then s else run (stepIter e s) es

/-- The final report at legacy-encode.cpp:199:
`printf("Encoded %d frames\n", framenum)`. -/
def reportedFrames (s : LoopSt) : Nat :=
  s.framenum

/-- Modelled from the spec: `GetFreeSurfaceIndex` lives in `util.h`, which is
not in this repository snapshot.  Per spec section 4.1, `acquireFree` scans
the pool in order for a surface not marked in-use and returns its index; the
caller at legacy-encode.cpp:147-148 does not guard against a failed scan.
An entry `true` marks an in-use surface, `false` a free one. -/
def getFreeSurfaceIndex : List Bool → Option Nat
  | [] => none
  | inUse :: rest =>
      if inUse then (getFreeSurfaceIndex rest).map (· + 1) else some 0

/-- The six arms of the status `switch` at legacy-encode.cpp:161-195, one per
`case` label plus the `default`. -/
inductive StatusAction where
  | actNone
  | actNotEnoughBuffer
  | actMoreData
  | actDeviceLost
  | actBusy
  | actUnknown
deriving DecidableEq, Repr

/-- Does the status carry one of the five named `case` labels of the
`switch` at legacy-encode.cpp:161-190? -/
def isNamedStatus : MfxStatus → Bool
  | .errNone => true
  | .errNotEnoughBuffer => true
  | .errMoreData => true
  | .errDeviceLost => true
  | .wrnDeviceBusy => true
  | .other _ => false

/-- The case-selection relation of the `switch` at legacy-encode.cpp:161-195:
a status selects an arm exactly as C `switch` semantics prescribe — each of
the five distinct `case` labels selects its own arm, and every status that is
not one of the five labels selects the `default` arm. -/
inductive DispatchCase : MfxStatus → StatusAction → Prop where
  | none_case : DispatchCase .errNone .actNone
  | buffer_case : DispatchCase .errNotEnoughBuffer .actNotEnoughBuffer
  | moreData_case : DispatchCase .errMoreData .actMoreData
  | deviceLost_case : DispatchCase .errDeviceLost .actDeviceLost
  | busy_case : DispatchCase .wrnDeviceBusy .actBusy
  | default_case (st : MfxStatus) :
      isNamedStatus st = false → DispatchCase st .actUnknown

/-!
The concrete scenario of spec section 8 (claim C8): a source of exactly 10
whole frames and a mock engine.  The mock is taken from the spec's words: it
accepts every submission, returns `Complete` with a token on the 1st, 3rd,
5th, ... submissions (odd-numbered ones), and returns `NeedMoreInput` once it
is drained with nothing pending.  The spec does not say what an even-numbered
submission returns; `Complete` without a token is the reading consistent with
"accepts every submission" and the simulated one-frame latency.  The mock's
internal state is the number of accepted frames whose output has not yet been
emitted (`pending`).
-/

/-- Scenario state: the loop state of the controller plus the mock engine's
count of accepted-but-not-yet-emitted frames. -/
structure ScnSt where
  ctrl : LoopSt
  pending : Nat
deriving DecidableEq, Repr

/-- Scenario start: fresh loop state, empty mock engine. -/
def scnInit : ScnSt := { ctrl := initSt, pending := 0 }

/-- The scenario's source holds exactly 10 whole frames. -/
def sourceFrames : Nat := 10

/-- Will the controller be draining at this iteration's submission?  True if
it already drains, or if the read of this iteration hits end of stream
(all 10 frames consumed). -/
def scnDrainAtSubmit (p : ScnSt) : Bool :=
  p.ctrl.isDraining || decide (sourceFrames ≤ p.ctrl.srcPos)

/-- The mock accepts a frame exactly when the submission carries a surface. -/
def scnAccept (p : ScnSt) : Bool :=
  !(scnDrainAtSubmit p)

/-- 1-based index of this iteration's submission. -/
def scnSubIndex (p : ScnSt) : Nat :=
  p.ctrl.submissions + 1

/-- Frames held by the mock right after it accepts this iteration's input. -/
def scnPendingAtSubmit (p : ScnSt) : Nat :=
  p.pending + (if scnAccept p then 1 else 0)

/-- The mock engine's answer: `NeedMoreInput` once drained with nothing
pending; otherwise `Complete`, with a token exactly on odd-numbered
submissions.  Returns the status and whether a sync token is yielded. -/
def scnStatus (p : ScnSt) : MfxStatus × Bool :=
  if scnDrainAtSubmit p = true ∧ scnPendingAtSubmit p = 0 then (.errMoreData, false)
  else if scnSubIndex p % 2 = 1 then (.errNone, true)
  else (.errNone, false)

/-- The environment behaviour of one scenario iteration: a 10-frame source,
the mock engine's status, an always-successful sync wait and sink. -/
def scnEnv (p : ScnSt) : EnvStep :=
  { readRes := if p.ctrl.srcPos < sourceFrames then .filled else .endOfStream
    subStatus := (scnStatus p).1
    token := (scnStatus p).2
    syncOk := true
    producedLen := 100
    writeOk := true }

/-- One scenario iteration: the controller runs one loop iteration under the
mock's behaviour; the mock's pending count gains the accepted frame and loses
the emitted unit, if any. -/
def scnStep (p : ScnSt) : ScnSt :=
  { ctrl := stepIter (scnEnv p) p.ctrl
    pending := scnPendingAtSubmit p - (if (scnStatus p).2 then 1 else 0) }

/-- Run the scenario for at most `n` iterations, stopping once the loop has
halted. -/
def scnRun : Nat → ScnSt
  | 0 => scnInit
  | n + 1 =>
      let p := scnRun n
      if halted p.ctrl then p else scnStep p

/-!
Helper lemmas: the loop-head invariant.  At the top of every iteration (and
hence at the moment of every submission, since the read phase touches neither
tokens nor the bitstream buffer) no sync token is live, the bitstream buffer
is empty, and `framenum` equals the number of `WriteEncodedStream` calls.
-/

/-- The invariant that holds at every loop head. -/
def LoopInv (s : LoopSt) : Prop :=
  s.liveTokens = 0 ∧ s.bitstreamLen = 0 ∧ s.framenum = s.sinkWrites

lemma phaseRead_keeps (e : EnvStep) (s : LoopSt) :
    (phaseRead e s).liveTokens = s.liveTokens ∧
    (phaseRead e s).bitstreamLen = s.bitstreamLen ∧
    (phaseRead e s).framenum = s.framenum ∧
    (phaseRead e s).sinkWrites = s.sinkWrites ∧
    (phaseRead e s).isStillGoing = s.isStillGoing ∧
    (phaseRead e s).aborted = s.aborted ∧
    (phaseRead e s).submissions = s.submissions := by
  unfold phaseRead
  split
  · exact ⟨rfl, rfl, rfl, rfl, rfl, rfl, rfl⟩
  · cases e.readRes <;> exact ⟨rfl, rfl, rfl, rfl, rfl, rfl, rfl⟩

lemma loopInv_phaseRead (e : EnvStep) (s : LoopSt) (h : LoopInv s) :
    LoopInv (phaseRead e s) := by
  obtain ⟨k1, k2, k3, k4, _⟩ := phaseRead_keeps e s
  exact ⟨k1.trans h.1, k2.trans h.2.1, (k3.trans h.2.2).trans k4.symm⟩

lemma loopInv_init : LoopInv initSt :=
  ⟨rfl, rfl, rfl⟩

lemma loopInv_step (e : EnvStep) (s : LoopSt) (h : LoopInv s) :
    LoopInv (stepIter e s) := by
  have h' := loopInv_phaseRead e s h
  unfold stepIter
  generalize phaseRead e s = s1 at h'
  obtain ⟨h1, h2, h3⟩ := h'
  obtain ⟨rr, st, tok, so, pl, wo⟩ := e
  cases st <;> cases tok <;> cases so <;>
    simp_all [LoopInv, phaseSubmit, phaseDispatch] <;> split <;> simp_all

lemma loopInv_run (es : List EnvStep) (s : LoopSt) (h : LoopInv s) :
    LoopInv (run s es) := by
  induction es generalizing s with
  | nil => exact h
  | cons e es ih =>
      simp only [run]
      split
      · exact h
      · exact ih _ (loopInv_step e s h)

lemma loopInv_reached (es : List EnvStep) : LoopInv (run initSt es) :=
  loopInv_run es initSt loopInv_init

/-- The arm of the `switch` that a status selects, as a function. -/
def dispatchArm : MfxStatus → StatusAction
  | .errNone => .actNone
  | .errNotEnoughBuffer => .actNotEnoughBuffer
  | .errMoreData => .actMoreData
  | .errDeviceLost => .actDeviceLost
  | .wrnDeviceBusy => .actBusy
  | .other _ => .actUnknown

lemma dispatchCase_iff (st : MfxStatus) (a : StatusAction) :
    DispatchCase st a ↔ a = dispatchArm st := by
  constructor
  · intro h
    cases h with
    | none_case => rfl
    | buffer_case => rfl
    | moreData_case => rfl
    | deviceLost_case => rfl
    | busy_case => rfl
    | default_case st hst => cases st <;> simp_all [isNamedStatus, dispatchArm]
  · intro h
    subst h
    cases st with
    | errNone => exact .none_case
    | errNotEnoughBuffer => exact .buffer_case
    | errMoreData => exact .moreData_case
    | errDeviceLost => exact .deviceLost_case
    | wrnDeviceBusy => exact .busy_case
    | other c => exact .default_case _ rfl

/-- C1: the status dispatch of the encode loop is total — every status selects
exactly one arm of the `switch` at legacy-encode.cpp:161-195, and any status
outside the five named case labels reaches the `default` arm, which logs the
numeric code and sets `isStillGoing` to false, terminating the loop. -/
theorem status_dispatch_total (st : MfxStatus) :
    (∃! a, DispatchCase st a) ∧
    (isNamedStatus st = false →
      DispatchCase st .actUnknown ∧
      ∀ e s, e.subStatus = st →
        (phaseDispatch e s).isStillGoing = false ∧
        (phaseDispatch e s).log.length = s.log.length + 1) := by
  constructor
  · exact ⟨dispatchArm st, (dispatchCase_iff st _).2 rfl,
      fun a ha => (dispatchCase_iff st a).1 ha⟩
  · intro hn
    refine ⟨.default_case st hn, ?_⟩
    intro e s he
    obtain ⟨rr, st2, tok, so, pl, wo⟩ := e
    have he2 : st2 = st := he
    subst he2
    cases st2 <;> simp_all [isNamedStatus]
    simp [phaseDispatch]

/-- C1 witness: the concrete status with numeric code 999 is outside the five
named labels; it selects the `default` arm, stops the loop and is logged. -/
theorem status_dispatch_total_witness :
    isNamedStatus (MfxStatus.other 999) = false ∧
    (phaseDispatch ⟨.filled, .other 999, false, true, 0, true⟩ initSt).isStillGoing = false ∧
    (phaseDispatch ⟨.filled, .other 999, false, true, 0, true⟩ initSt).log.length =
      initSt.log.length + 1 :=
  ⟨rfl,
    ((status_dispatch_total (.other 999)).2 rfl).2
      ⟨.filled, .other 999, false, true, 0, true⟩ initSt rfl⟩

/-- C2: single in-flight discipline.  At every loop head (so before every
further submission) no sync token is live and the bitstream buffer holds no
unflushed unit; the read phase does not change that, a submission makes at
most one token live, and a `Complete`-with-token iteration consumes the token
and flushes the buffer to the sink within the same iteration. -/
theorem single_token_invariant (es : List EnvStep) (e : EnvStep) :
    (run initSt es).liveTokens = 0 ∧
    (run initSt es).bitstreamLen = 0 ∧
    (phaseRead e (run initSt es)).liveTokens = 0 ∧
    (phaseRead e (run initSt es)).bitstreamLen = 0 ∧
    (phaseSubmit e (phaseRead e (run initSt es))).liveTokens ≤ 1 ∧
    (e.subStatus = .errNone → e.token = true →
      (stepIter e (run initSt es)).liveTokens = 0 ∧
      (e.syncOk = true →
        (stepIter e (run initSt es)).sinkWrites = (run initSt es).sinkWrites + 1 ∧
        (stepIter e (run initSt es)).bitstreamLen = 0)) := by
  obtain ⟨h1, h2, h3⟩ := loopInv_reached es
  obtain ⟨k1, k2, k3, k4, _⟩ := phaseRead_keeps e (run initSt es)
  refine ⟨h1, h2, k1.trans h1, k2.trans h2, ?_, ?_⟩
  · generalize phaseRead e (run initSt es) = s1 at k1
    obtain ⟨rr, st, tok, so, pl, wo⟩ := e
    cases st <;> cases tok <;> simp_all [phaseSubmit]
  · intro hst htok
    have hinv := loopInv_step e (run initSt es) ⟨h1, h2, h3⟩
    refine ⟨hinv.1, ?_⟩
    intro hso
    refine ⟨?_, hinv.2.1⟩
    obtain ⟨rr, st, tok, so, pl, wo⟩ := e
    have hst2 : st = .errNone := hst
    have htok2 : tok = true := htok
    have hso2 : so = true := hso
    subst hst2; subst htok2; subst hso2
    unfold stepIter
    generalize hg : phaseRead ⟨rr, .errNone, true, true, pl, wo⟩ (run initSt es) = s1
    rw [hg] at k4
    simp [phaseSubmit, phaseDispatch, k4]

/-- C2 witness: with no prior iterations and a token-yielding submission whose
wait succeeds, the loop head has no live token and an empty buffer, the
submission makes one token live, and the iteration flushes one unit. -/
theorem single_token_invariant_witness :
    (run initSt []).liveTokens = 0 ∧
    (stepIter ⟨.filled, .errNone, true, true, 7, true⟩ (run initSt [])).liveTokens = 0 ∧
    (stepIter ⟨.filled, .errNone, true, true, 7, true⟩ (run initSt [])).sinkWrites =
      (run initSt []).sinkWrites + 1 := by
  have h := single_token_invariant [] ⟨.filled, .errNone, true, true, 7, true⟩
  exact ⟨h.1, (h.2.2.2.2.2 rfl rfl).1, ((h.2.2.2.2.2 rfl rfl).2 rfl).1⟩

/-- C4: the `MFX_ERR_MORE_DATA` arm (legacy-encode.cpp:178-182).  While not
draining it leaves the state untouched (loop keeps running, nothing written);
while draining it only clears `isStillGoing`, terminating the loop.  The
equality of states shows these are the only two behaviours. -/
theorem more_data_dispatch (e : EnvStep) (s : LoopSt) (h : e.subStatus = .errMoreData) :
    (s.isDraining = false → phaseDispatch e s = s) ∧
    (s.isDraining = true → phaseDispatch e s = { s with isStillGoing := false }) := by
  obtain ⟨rr, st, tok, so, pl, wo⟩ := e
  have h2 : st = .errMoreData := h
  subst h2
  constructor <;> intro hd <;> simp [phaseDispatch, hd]

/-- C4 witness: from the initial (feeding) state, `MFX_ERR_MORE_DATA` leaves
the state unchanged; from a draining state it stops the loop. -/
theorem more_data_dispatch_witness :
    phaseDispatch ⟨.filled, .errMoreData, false, true, 0, true⟩ initSt = initSt ∧
    phaseDispatch ⟨.filled, .errMoreData, false, true, 0, true⟩
        { initSt with isDraining := true } =
      { initSt with isDraining := true, isStillGoing := false } :=
  ⟨(more_data_dispatch _ initSt rfl).1 rfl,
    (more_data_dispatch _ { initSt with isDraining := true } rfl).2 rfl⟩

/-- C10: `framenum` starts at zero and is incremented exactly when a unit is
written to the sink: along every run of the loop it equals the number of
`WriteEncodedStream` calls, and the final report prints exactly this count. -/
theorem framenum_counts_sink_writes (es : List EnvStep) :
    initSt.framenum = 0 ∧
    (run initSt es).framenum = (run initSt es).sinkWrites ∧
    reportedFrames (run initSt es) = (run initSt es).sinkWrites :=
  ⟨rfl, (loopInv_reached es).2.2, (loopInv_reached es).2.2⟩

/-- Environment of an iteration whose submission returns `MFX_WRN_DEVICE_BUSY`
while a frame is available. -/
def busyEnv : EnvStep := ⟨.filled, .wrnDeviceBusy, false, true, 0, true⟩

/-- C3: refuted on the code.  When a submission returns `MFX_WRN_DEVICE_BUSY`
while feeding, the `case` arm at legacy-encode.cpp:187-190 is an empty
`break`, so the next iteration's loop head re-runs `GetFreeSurfaceIndex` and
`ReadRawFrame` (lines 146-153): the first (busy) submission carried the first
frame (source position 1), the loop is still running, and the retried
submission carries the second frame after a second surface acquisition — the
frame source advanced and the retry is not the identical submission. -/
theorem busy_retry_advances_source :
    (phaseRead busyEnv initSt).srcPos = 1 ∧
    (phaseRead busyEnv initSt).acquisitions = 1 ∧
    halted (stepIter busyEnv initSt) = false ∧
    (phaseRead busyEnv (stepIter busyEnv initSt)).srcPos = 2 ∧
    (phaseRead busyEnv (stepIter busyEnv initSt)).acquisitions = 2 := by
  decide

/-- Environment of an iteration whose frame read fails with a read error (the
submission then proceeds with the NULL sentinel and here returns
`MFX_ERR_NONE` without a sync point). -/
def readErrEnv : EnvStep := ⟨.readError, .errNone, false, true, 0, true⟩

/-- C5 counterexample: a `ReadError` from the frame read does not terminate
the pipeline.  The check at legacy-encode.cpp:151-152 maps every non-NONE
read status to `isDraining = true`, so after a read error the controller is
draining and the loop is still running — it does not terminate with a fatal
I/O error. -/
theorem read_error_not_fatal :
    (run initSt [readErrEnv]).isDraining = true ∧
    halted (run initSt [readErrEnv]) = false ∧
    (run initSt [readErrEnv]).aborted = false := by
  decide

lemma phaseRead_notFilled (e : EnvStep) (s : LoopSt) (h : s.isDraining = false)
    (hr : e.readRes ≠ .filled) :
    phaseRead e s = { s with acquisitions := s.acquisitions + 1, isDraining := true } := by
  unfold phaseRead
  cases hc : e.readRes with
  | filled => exact absurd hc hr
  | endOfStream => simp [h, hc]
  | readError => simp [h, hc]

/-- C5 (amended): any failed read while feeding — end of stream or read error
alike — flips the controller to draining without consuming a source frame,
and the submission of that iteration carries the NULL sentinel; the
controller treats `ReadError` exactly like `EndOfStream` (the two runs of the
loop body are equal states). -/
theorem read_failure_handling (e : EnvStep) (s : LoopSt) (h : s.isDraining = false) :
    (e.readRes = .endOfStream ∨ e.readRes = .readError →
      (phaseRead e s).isDraining = true ∧
      (phaseRead e s).srcPos = s.srcPos ∧
      submitArg (phaseRead e s) = none) ∧
    stepIter { e with readRes := .endOfStream } s =
      stepIter { e with readRes := .readError } s := by
  constructor
  · intro hr
    have hne : e.readRes ≠ .filled := by
      rcases hr with h1 | h1 <;> simp [h1]
    rw [phaseRead_notFilled e s h hne]
    exact ⟨rfl, rfl, by simp [submitArg]⟩
  · obtain ⟨rr, st, tok, so, pl, wo⟩ := e
    unfold stepIter
    rw [phaseRead_notFilled _ s h (by simp), phaseRead_notFilled _ s h (by simp)]
    cases st <;> cases tok <;> cases so <;> simp [phaseSubmit, phaseDispatch]

/-- C5 amended-claim witness: from the initial state, an end-of-stream read
switches to draining, leaves the source position at 0, and the submission
carries the NULL sentinel. -/
theorem read_failure_handling_witness :
    (phaseRead ⟨.endOfStream, .errNone, false, true, 0, true⟩ initSt).isDraining = true ∧
    (phaseRead ⟨.endOfStream, .errNone, false, true, 0, true⟩ initSt).srcPos = 0 ∧
    submitArg (phaseRead ⟨.endOfStream, .errNone, false, true, 0, true⟩ initSt) = none :=
  (read_failure_handling ⟨.endOfStream, .errNone, false, true, 0, true⟩ initSt rfl).1
    (Or.inl rfl)

/-- Environment of an iteration whose submission returns
`MFX_ERR_DEVICE_LOST`. -/
def lostEnv : EnvStep := ⟨.filled, .errDeviceLost, false, true, 0, true⟩

/-- C6: refuted on the code.  The `MFX_ERR_DEVICE_LOST` arm at
legacy-encode.cpp:183-186 is an empty `break`: after a device-lost status the
loop has not halted, and running a second iteration performs a second
submission — the pipeline does not shut down. -/
theorem device_lost_not_fatal :
    halted (stepIter lostEnv initSt) = false ∧
    (stepIter lostEnv initSt).isStillGoing = true ∧
    (run initSt [lostEnv, lostEnv]).submissions = 2 := by
  decide

/-- Environment of a successful token-yielding iteration whose sink write
succeeds. -/
def okWriteEnv : EnvStep := ⟨.filled, .errNone, true, true, 100, true⟩

/-- Environment of a successful token-yielding iteration whose sink write
fails. -/
def badWriteEnv : EnvStep := ⟨.filled, .errNone, true, true, 100, false⟩

/-- C7 counterexample: a sink write failure on the 5th write is not fatal.
`WriteEncodedStream`'s outcome is never inspected at legacy-encode.cpp:169,
so after the failing 5th write the loop is still running, a 6th submission
occurs, and `framenum` counted the failed unit as well. -/
theorem sink_failure_not_fatal :
    (run initSt [okWriteEnv, okWriteEnv, okWriteEnv, okWriteEnv, badWriteEnv,
        okWriteEnv]).sinkFailures = 1 ∧
    (run initSt [okWriteEnv, okWriteEnv, okWriteEnv, okWriteEnv, badWriteEnv,
        okWriteEnv]).submissions = 6 ∧
    halted (run initSt [okWriteEnv, okWriteEnv, okWriteEnv, okWriteEnv, badWriteEnv,
        okWriteEnv]) = false := by
  decide

/-- C7 (amended): the controller never observes the sink write's outcome.  On
a token-yielding submission whose wait succeeds, the loop's control state
(`isStillGoing`, `aborted`) is unchanged and the write and frame counters
increment, whether or not the underlying write succeeded. -/
theorem sink_failure_invisible (e : EnvStep) (s : LoopSt) (h1 : e.subStatus = .errNone)
    (h2 : e.token = true) (h3 : e.syncOk = true) :
    (stepIter e s).isStillGoing = s.isStillGoing ∧
    (stepIter e s).aborted = s.aborted ∧
    (stepIter e s).framenum = s.framenum + 1 ∧
    (stepIter e s).sinkWrites = s.sinkWrites + 1 := by
  obtain ⟨k1, k2, k3, k4, k5, k6, k7⟩ := phaseRead_keeps e s
  obtain ⟨rr, st, tok, so, pl, wo⟩ := e
  have h1a : st = .errNone := h1
  have h2a : tok = true := h2
  have h3a : so = true := h3
  subst h1a; subst h2a; subst h3a
  unfold stepIter
  generalize hg : phaseRead ⟨rr, .errNone, true, true, pl, wo⟩ s = s1
  rw [hg] at k3 k4 k5 k6
  simp [phaseSubmit, phaseDispatch, k3, k4, k5, k6]

/-- C7 amended-claim witness: a failing write from the initial state leaves
the loop running, does not abort, and still increments both counters. -/
theorem sink_failure_invisible_witness :
    (stepIter badWriteEnv initSt).isStillGoing = initSt.isStillGoing ∧
    (stepIter badWriteEnv initSt).aborted = initSt.aborted ∧
    (stepIter badWriteEnv initSt).framenum = initSt.framenum + 1 ∧
    (stepIter badWriteEnv initSt).sinkWrites = initSt.sinkWrites + 1 :=
  sink_failure_invisible badWriteEnv initSt rfl rfl rfl

/-- C8 counterexample: under the spec's concrete scenario — a 10-frame source
and the mock engine with a token on odd-numbered submissions — the loop does
not perform 11 submissions: it performs 20 (the drain phase needs 10 more
submissions to pull the 5 units still pending inside the mock). -/
theorem scenario_not_eleven_submissions :
    (scnRun 30).ctrl.submissions = 20 ∧ ¬ (scnRun 30).ctrl.submissions = 11 := by
  decide

/-- C8 (amended): under the spec's concrete scenario the pipeline performs
exactly 20 submissions (10 while feeding, 10 while draining), consumes all 10
source frames, writes exactly 10 completed units to the sink, reports a final
frame count of 10, and has halted. -/
theorem scenario_counts :
    (scnRun 30).ctrl.submissions = 20 ∧
    (scnRun 10).ctrl.submissions = 10 ∧
    (scnRun 10).ctrl.isDraining = false ∧
    (scnRun 30).ctrl.srcPos = 10 ∧
    (scnRun 30).ctrl.sinkWrites = 10 ∧
    (scnRun 30).ctrl.framenum = 10 ∧
    reportedFrames (scnRun 30).ctrl = 10 ∧
    halted (scnRun 30).ctrl = true := by
  decide

/-- C9: whenever some surface of the pool is free, the free-surface scan
returns an index strictly below the pool length, so the unguarded access
`encSurfPool[nIndex]` at legacy-encode.cpp:148 is in bounds; when no surface
is free the scan returns nothing, and only then would the unguarded access be
out of bounds. -/
theorem free_surface_scan_in_bounds (pool : List Bool) :
    (false ∈ pool → ∃ i, getFreeSurfaceIndex pool = some i ∧ i < pool.length) ∧
    (false ∉ pool → getFreeSurfaceIndex pool = none) := by
  induction pool with
  | nil => simp [getFreeSurfaceIndex]
  | cons b rest ih =>
      cases b with
      | false =>
          constructor
          · exact fun _ => ⟨0, rfl, Nat.succ_pos _⟩
          · intro h
            exact absurd (List.mem_cons_self _ _) h
      | true =>
          constructor
          · intro hmem
            have hr : false ∈ rest := by simpa using hmem
            obtain ⟨i, hi, hlt⟩ := ih.1 hr
            refine ⟨i + 1, ?_, by simpa using Nat.succ_lt_succ hlt⟩
            simp [getFreeSurfaceIndex, hi]
          · intro h
            have hr : false ∉ rest := fun hm => h (List.mem_cons_of_mem _ hm)
            simp [getFreeSurfaceIndex, ih.2 hr]

/-- C9 witness: in a pool whose first surface is in use and second is free,
the scan returns index 1, which is below the pool length 2. -/
theorem free_surface_scan_in_bounds_witness :
    ∃ i, getFreeSurfaceIndex [true, false] = some i ∧ i < ([true, false] : List Bool).length :=
  (free_surface_scan_in_bounds [true, false]).1 (by decide)

end LegacyEncode
